import Mathlib

set_option maxRecDepth 4000

/-!
Verification of `src/crates/glfw3-sys/bindgen/platform/x11.h`, the X11/GLX
platform header of the glfw3-sys binding-generator configuration.

The header is shallowly embedded as a list of lines (`x11Header`), each line
being a typedef, a `#define`, an `#include`, or blank.  The embedding is tied
back to the exact file text through `render` and `x11SourceLines`.  The parts
of the build that live outside this repository fragment (the vendored GLFW
headers and the OS headers they may pull in) are modelled from the
specification where a claim needs them; those definitions are marked
`Modelled from the spec:` in their doc comments.
-/

namespace Glfw3SysX11

/-- The C types as far as this header and its modelled includes need them:
`void`, pointers, named struct types (concrete OS-header types), and
`unsigned long` (the representation of X11 XID-style handles). -/
inductive CType where
  | void : CType
  | ptr : CType → CType
  | namedStruct : String → CType
  | unsignedLong : CType
  deriving DecidableEq, BEq

/-- One line of a C header file.  The first four constructors are the line
kinds that actually occur in `x11.h`; `funcDecl`, `objectDecl` and
`statement` are the line kinds a C header could contain that would give it
runtime behavior, carried so that their absence in `x11Header` is a real
statement rather than one true by construction. -/
inductive Line where
  | typedef : CType → String → Line
  | define : String → Line
  | includeFile : String → Line
  | blank : Line
  | funcDecl : String → Line
  | objectDecl : String → Line
  | statement : String → Line
  deriving DecidableEq, BEq

/-- The fifteen lines of text of `x11.h`, embedded. -/
def x11Header : List Line :=
  [ Line.typedef CType.void "Display",
    Line.typedef (CType.ptr CType.void) "RRCrtc",
    Line.typedef (CType.ptr CType.void) "RROutput",
    Line.typedef (CType.ptr CType.void) "Window",
    Line.blank,
    Line.typedef (CType.ptr CType.void) "GLXContext",
    Line.typedef (CType.ptr CType.void) "GLXWindow",
    Line.blank,
    Line.define "GLFW_INCLUDE_NONE",
    Line.define "GLFW_NATIVE_INCLUDE_NONE",
    Line.define "GLFW_EXPOSE_NATIVE_X11",
    Line.define "GLFW_EXPOSE_NATIVE_GLX",
    Line.blank,
    Line.includeFile "../../vendor/glfw/include/GLFW/glfw3.h",
    Line.includeFile "../../vendor/glfw/include/GLFW/glfw3native.h" ]

/-- C surface syntax of a `CType`. -/
def renderCType : CType → String
  | CType.void => "void"
  | CType.ptr t => renderCType t ++ "*"
  | CType.namedStruct s => "struct " ++ s
  | CType.unsignedLong => "unsigned long"

/-- C surface syntax of a line. -/
def render : Line → String
  | Line.typedef t n => "typedef " ++ renderCType t ++ " " ++ n ++ ";"
  | Line.define m => "#define " ++ m
  | Line.includeFile p => "#include \x22" ++ p ++ "\x22"
  | Line.blank => ""
  | Line.funcDecl s => s
  | Line.objectDecl s => s
  | Line.statement s => s

/-- The fifteen lines of `x11.h`, verbatim. -/
def x11SourceLines : List String :=
  [ "typedef void Display;",
    "typedef void* RRCrtc;",
    "typedef void* RROutput;",
    "typedef void* Window;",
    "",
    "typedef void* GLXContext;",
    "typedef void* GLXWindow;",
    "",
    "#define GLFW_INCLUDE_NONE",
    "#define GLFW_NATIVE_INCLUDE_NONE",
    "#define GLFW_EXPOSE_NATIVE_X11",
    "#define GLFW_EXPOSE_NATIVE_GLX",
    "",
    "#include \x22../../vendor/glfw/include/GLFW/glfw3.h\x22",
    "#include \x22../../vendor/glfw/include/GLFW/glfw3native.h\x22" ]

/-- The full text of `x11.h`.  The file's final line is unterminated, so the
lines are joined by newlines with no trailing newline. -/
def x11Source : String :=
  String.intercalate "\x0a" x11SourceLines

/-- The typedefs a header makes, as name-type pairs, in order. -/
def typedefsOf (h : List Line) : List (String × CType) :=
  h.filterMap fun
    | Line.typedef t n => some (n, t)
    | _ => none

/-- The typedef names a header declares, in order. -/
def typedefNames (h : List Line) : List String :=
  (typedefsOf h).map (fun nt => nt.1)

/-- The macros a header defines, in order. -/
def definedMacros (h : List Line) : List String :=
  h.filterMap fun
    | Line.define m => some m
    | _ => none

/-- The include paths of a header, in order. -/
def includesOf (h : List Line) : List String :=
  h.filterMap fun
    | Line.includeFile p => some p
    | _ => none

/-- The type a typedef name resolves to.  C typedefs are aliases: two names
bound to the same `CType` are one and the same type. -/
def resolvedType (h : List Line) (n : String) : Option CType :=
  (typedefsOf h).lookup n

def isPtrType : CType → Bool
  | CType.ptr _ => true
  | _ => false

/-- Whether a type has accessible members.  Only a concretely defined struct
type does; `void`, pointers and integer types do not. -/
def hasAccessibleMembers : CType → Bool
  | CType.namedStruct _ => true
  | _ => false

/-- Whether a type is complete.  `void` is the incomplete type: no object
(value) of type `void` can exist in C, so a `void` typedef is usable only
behind a pointer. -/
def isComplete : CType → Bool
  | CType.void => false
  | CType.ptr _ => true
  | CType.namedStruct _ => true
  | CType.unsignedLong => true

def isTypedefLine : Line → Bool
  | Line.typedef _ _ => true
  | _ => false

def isDefineLine : Line → Bool
  | Line.define _ => true
  | _ => false

def isIncludeLine : Line → Bool
  | Line.includeFile _ => true
  | _ => false

def isBlankLine : Line → Bool
  | Line.blank => true
  | _ => false

/-- A pure build-configuration line: typedef, macro definition, include
directive, or blank. -/
def isConfigLine (l : Line) : Bool :=
  isTypedefLine l || isDefineLine l || isIncludeLine l || isBlankLine l

/-- A line that would give the header runtime behavior: a function, an
object definition, or an executable statement. -/
def isRuntimeLine : Line → Bool
  | Line.funcDecl _ => true
  | Line.objectDecl _ => true
  | Line.statement _ => true
  | _ => false

/-- `precedesAll p q h` holds when every `p`-line of `h` occurs strictly
before every `q`-line: once a `q`-line has been seen, no `p`-line follows. -/
def precedesAll (p q : Line → Bool) : List Line → Bool
  | [] => true
  | a :: rest =>
      (!(q a) || rest.all fun b => !(p b)) && precedesAll p q rest

end Glfw3SysX11

namespace Glfw3SysX11

/-- Modelled from the spec: the vendored GLFW headers are not part of this
repository fragment.  The exposure macros recognised by the vendored
native-interop header `glfw3native.h` split into windowing-backend
selectors, each enabling one windowing backend's native accessors. -/
def windowingExposureSelectors : List String :=
  [ "GLFW_EXPOSE_NATIVE_WIN32",
    "GLFW_EXPOSE_NATIVE_COCOA",
    "GLFW_EXPOSE_NATIVE_X11",
    "GLFW_EXPOSE_NATIVE_WAYLAND" ]

/-- Modelled from the spec: the graphics-context selectors recognised by the
vendored native-interop header, each enabling one context API's native
accessors. -/
def contextExposureSelectors : List String :=
  [ "GLFW_EXPOSE_NATIVE_WGL",
    "GLFW_EXPOSE_NATIVE_NSGL",
    "GLFW_EXPOSE_NATIVE_GLX",
    "GLFW_EXPOSE_NATIVE_EGL",
    "GLFW_EXPOSE_NATIVE_OSMESA" ]

/-- Modelled from the spec: the native handle types that the vendored
`glfw3native.h` native-interop declarations reference under the given
exposure macros.  The X11 accessors reference the display connection, the
window, and the RandR CRTC and output handles; the GLX accessors reference
the GLX context and GLX window handles. -/
def nativeHandleRefs (macros : List String) : List String :=
  (if macros.contains "GLFW_EXPOSE_NATIVE_X11" then
      ["Display", "Window", "RRCrtc", "RROutput"]
    else []) ++
  (if macros.contains "GLFW_EXPOSE_NATIVE_GLX" then
      ["GLXContext", "GLXWindow"]
    else [])

/-- Two lists of names denote the same set. -/
def sameSet (a b : List String) : Bool :=
  (a.all fun n => b.contains n) && (b.all fun n => a.contains n)

def glfw3Path : String :=
  "../../vendor/glfw/include/GLFW/glfw3.h"

def glfw3nativePath : String :=
  "../../vendor/glfw/include/GLFW/glfw3native.h"

/-- Modelled from the spec: the OpenGL typedefs that the vendored `glfw3.h`
pulls in transitively by default; `GLFW_INCLUDE_NONE` suppresses them.
They do not collide with this header's handle typedef names. -/
def openglTypedefs : List (String × CType) :=
  [ ("GLenum", CType.unsignedLong),
    ("GLuint", CType.unsignedLong) ]

/-- Modelled from the spec: the concrete X11 typedefs that the vendored
`glfw3native.h` pulls in transitively from the real Xlib and Xrandr OS
headers when `GLFW_EXPOSE_NATIVE_X11` is set and
`GLFW_NATIVE_INCLUDE_NONE` is not; they concretely define the same names
this header declares as opaque stand-ins. -/
def xlibTypedefs : List (String × CType) :=
  [ ("Display", CType.namedStruct "_XDisplay"),
    ("Window", CType.unsignedLong),
    ("RRCrtc", CType.unsignedLong),
    ("RROutput", CType.unsignedLong) ]

/-- Modelled from the spec: the concrete GLX typedefs that the vendored
`glfw3native.h` pulls in transitively from the real GLX OS header when
`GLFW_EXPOSE_NATIVE_GLX` is set and `GLFW_NATIVE_INCLUDE_NONE` is not. -/
def glxTypedefs : List (String × CType) :=
  [ ("GLXContext", CType.ptr (CType.namedStruct "__GLXcontextRec")),
    ("GLXWindow", CType.unsignedLong) ]

/-- Modelled from the spec: the typedefs an `#include` directive contributes
under the given macro environment.  `GLFW_INCLUDE_NONE` suppresses the
vendored library's default inclusion of the platform OS (OpenGL) headers;
`GLFW_NATIVE_INCLUDE_NONE` suppresses its default transitive inclusion of
the native-interop OS headers. -/
def includeExpansion (macros : List String) (path : String) :
    List (String × CType) :=
  if path = glfw3Path then
    if macros.contains "GLFW_INCLUDE_NONE" then [] else openglTypedefs
  else if path = glfw3nativePath then
    if macros.contains "GLFW_NATIVE_INCLUDE_NONE" then []
    else
      (if macros.contains "GLFW_EXPOSE_NATIVE_X11" then xlibTypedefs
        else []) ++
      (if macros.contains "GLFW_EXPOSE_NATIVE_GLX" then glxTypedefs
        else [])
  else []

/-- Preprocess a header: walk the lines in order, accumulating defined
macros, collecting the typedefs the translation unit ends up containing,
including those contributed by the (modelled) includes. -/
def preprocess (macros : List String) : List Line → List (String × CType)
  | [] => []
  | Line.typedef t n :: rest => (n, t) :: preprocess macros rest
  | Line.define m :: rest => preprocess (m :: macros) rest
  | Line.includeFile p :: rest =>
      includeExpansion macros p ++ preprocess macros rest
  | _ :: rest => preprocess macros rest

/-- Compilation of the translation unit succeeds only if no typedef name is
bound twice to different types: a C typedef may be repeated identically but
redefining it to a different type is a compile error. -/
def conflictFree : List (String × CType) → Bool
  | [] => true
  | (n, t) :: rest =>
      (rest.all fun nt => nt.1 != n || nt.2 == t) && conflictFree rest

/-- `x11.h` with its two include-suppression defines omitted. -/
def x11HeaderNoSuppress : List Line :=
  x11Header.filter fun l =>
    !(l == Line.define "GLFW_INCLUDE_NONE"
        || l == Line.define "GLFW_NATIVE_INCLUDE_NONE")

end Glfw3SysX11

namespace Glfw3SysX11

/-- The embedded header renders back, line for line, to the exact text of
`x11.h`. -/
theorem x11Header_renders_to_source : x11Header.map render = x11SourceLines :=
  rfl

/-- Claim C1 counterexample: `Window` and `RRCrtc` are different handle
kinds, yet both typedefs resolve to one and the same type `void*`.  A C
typedef is an alias, not a new type, so a value of one of these kinds can
be passed where the other is expected. -/
theorem window_rrcrtc_one_type :
    ("Window" == "RRCrtc") = false ∧
    resolvedType x11Header "Window" = some (CType.ptr CType.void) ∧
    resolvedType x11Header "RRCrtc" = some (CType.ptr CType.void) ∧
    resolvedType x11Header "Window" = resolvedType x11Header "RRCrtc" := by
  decide

/-- Claim C1 (amended): the six typedefs introduce six pairwise distinct
names, but not pairwise distinct types: `RRCrtc`, `RROutput`, `Window`,
`GLXContext` and `GLXWindow` all alias the single type `void*` and are
mutually interchangeable; only `Display`, an alias of `void`, differs in
type from the other five. -/
theorem typedef_names_distinct_types_collapse :
    (typedefNames x11Header).Nodup ∧
    typedefNames x11Header =
      ["Display", "RRCrtc", "RROutput", "Window", "GLXContext",
       "GLXWindow"] ∧
    resolvedType x11Header "Display" = some CType.void ∧
    (["RRCrtc", "RROutput", "Window", "GLXContext", "GLXWindow"].all fun n =>
      resolvedType x11Header n == some (CType.ptr CType.void)) = true := by
  decide

/-- Claim C2 counterexample: `Display` is one of the declared handle
typedefs, and it is not a pointer type: it is declared as the incomplete
type `void` itself. -/
theorem display_not_pointer :
    ("Display" ∈ typedefNames x11Header) ∧
    (resolvedType x11Header "Display").map isPtrType = some false := by
  decide

/-- Claim C2 (amended): five of the six typedefs (`RRCrtc`, `RROutput`,
`Window`, `GLXContext`, `GLXWindow`) are pointer types whose pointee,
`void`, is incomplete and has no accessible members; `Display` is instead
declared as the member-less incomplete type `void` itself, not as a
pointer type. -/
theorem five_ptr_to_memberless_display_bare :
    (["RRCrtc", "RROutput", "Window", "GLXContext", "GLXWindow"].all fun n =>
      match resolvedType x11Header n with
      | some (CType.ptr t) => !(hasAccessibleMembers t)
      | _ => false) = true ∧
    resolvedType x11Header "Display" = some CType.void ∧
    hasAccessibleMembers CType.void = false ∧
    isPtrType CType.void = false := by
  decide

/-- Claim C3: among all macros the header defines, precisely one is a
windowing-backend exposure selector, namely the X11 one, and precisely one
is a graphics-context exposure selector, namely the GLX one; no exposure
macro of any other backend or context API is defined. -/
theorem one_windowing_one_context_selector :
    (definedMacros x11Header).filter
        (fun m => windowingExposureSelectors.contains m) =
      ["GLFW_EXPOSE_NATIVE_X11"] ∧
    (definedMacros x11Header).filter
        (fun m => contextExposureSelectors.contains m) =
      ["GLFW_EXPOSE_NATIVE_GLX"] := by
  decide

/-- Claim C4: the set of typedef names the header declares is exactly the
set of native handle types referenced by the vendored header's enabled
(X11/GLX) native-interop declarations: no referenced handle type is
missing a typedef, and no declared typedef is extraneous. -/
theorem typedefs_match_enabled_refs :
    sameSet (typedefNames x11Header)
      (nativeHandleRefs (definedMacros x11Header)) = true := by
  decide

/-- Claim C5: every typedef line of the header precedes every
macro-definition line, and every typedef and macro-definition line precedes
every include line; the four macros are therefore all defined before either
vendored header is included, so the vendored headers' conditional
compilation is evaluated with all four macros in scope. -/
theorem typedefs_then_defines_then_includes :
    precedesAll isTypedefLine isDefineLine x11Header = true ∧
    precedesAll isTypedefLine isIncludeLine x11Header = true ∧
    precedesAll isDefineLine isIncludeLine x11Header = true ∧
    definedMacros x11Header =
      ["GLFW_INCLUDE_NONE", "GLFW_NATIVE_INCLUDE_NONE",
       "GLFW_EXPOSE_NATIVE_X11", "GLFW_EXPOSE_NATIVE_GLX"] ∧
    includesOf x11Header = [glfw3Path, glfw3nativePath] := by
  decide

/-- Claim C6: the header defines exactly one occurrence of the include-none
guard and exactly one occurrence of the distinct native-include-none guard,
both before any include directive; under the defined macros the (modelled)
vendored includes contribute no OS-header typedefs, i.e. the guards
suppress the default transitive OS-header inclusion. -/
theorem suppression_guards_defined_and_effective :
    (definedMacros x11Header).count "GLFW_INCLUDE_NONE" = 1 ∧
    (definedMacros x11Header).count "GLFW_NATIVE_INCLUDE_NONE" = 1 ∧
    ("GLFW_INCLUDE_NONE" == "GLFW_NATIVE_INCLUDE_NONE") = false ∧
    precedesAll isDefineLine isIncludeLine x11Header = true ∧
    includeExpansion (definedMacros x11Header) glfw3Path = [] ∧
    includeExpansion (definedMacros x11Header) glfw3nativePath = [] := by
  decide

/-- Claim C7: every line of the header is a typedef, a macro definition, an
include directive, or blank, and no line is a function definition, an
object definition, or an executable statement: the artifact consists solely
of build-time configuration and has no runtime behavior. -/
theorem header_is_pure_configuration :
    x11Header.all isConfigLine = true ∧
    (x11Header.all fun l => !(isRuntimeLine l)) = true := by
  decide

/-- Claim C8: with the suppression macros in place preprocessing yields a
conflict-free set of typedefs, but omitting the two include-suppression
defines lets the (modelled) vendored headers pull in the real OS headers,
whose concrete `Display`, `Window`, `RRCrtc`, `RROutput`, `GLXContext` and
`GLXWindow` typedefs conflict with this header's opaque stand-ins, so the
translation unit fails to compile with redefinition errors. -/
theorem suppression_macros_load_bearing :
    conflictFree (preprocess [] x11Header) = true ∧
    conflictFree (preprocess [] x11HeaderNoSuppress) = false := by
  decide

/-- Claim C9 counterexample: the header's text has fifteen lines, not
fourteen; fourteen is the file's newline count, the final line being
unterminated. -/
theorem line_count_fifteen_not_fourteen :
    (x11SourceLines.length == 14) = false ∧
    x11SourceLines.length = 15 ∧
    (x11Source.data.count '\x0a') = 14 ∧
    x11Header.map render = x11SourceLines := by
  decide

/-- Claim C9 (amended): the source file is fifteen lines of type aliasing
and macro configuration, holding fourteen newline characters since its
final line is unterminated, and every line is either a typedef, a macro
definition, an include directive, or blank. -/
theorem fifteen_lines_all_config :
    x11SourceLines.length = 15 ∧
    (x11Source.data.count '\x0a') = 14 ∧
    x11Header.map render = x11SourceLines ∧
    x11Header.all isConfigLine = true := by
  decide

/-- Claim C10: `Display` alone is declared as the incomplete type `void`
itself: no value of an incomplete type can exist in C, so `Display` is
usable only behind a pointer, and `Display*` resolves to `void*`; each of
the other five handles is declared directly as the pointer type `void*`. -/
theorem display_bare_void_others_void_ptr :
    resolvedType x11Header "Display" = some CType.void ∧
    isComplete CType.void = false ∧
    (resolvedType x11Header "Display").map CType.ptr =
      some (CType.ptr CType.void) ∧
    (["RRCrtc", "RROutput", "Window", "GLXContext", "GLXWindow"].all fun n =>
      resolvedType x11Header n == some (CType.ptr CType.void)) = true := by
  decide

end Glfw3SysX11
